import Mathlib

set_option maxRecDepth 20000

/-!
Verification development for the GitHub Activity README updater
(`update_readme.py`).  The script fetches recent activity events for a
user, aggregates them into summary statistics, renders a text bar chart
and two markdown sections, and splices the rendered sections into
marker-delimited regions of `README.md`.

Documents are modelled as `List Char`.  The three `re.sub` calls in
`update_readme` all use a pattern of the shape
`startMarker.*?endMarker` with `re.DOTALL`: the marker strings contain
no regex metacharacters, so the pattern matches the literal start
marker, then a shortest (non-greedy) stretch of arbitrary characters
(newlines included), then the literal end marker.  `reSub` below
implements exactly this leftmost, non-overlapping, shortest-match
substitution; the replacement text is spliced literally (the actual
replacement strings of the script contain no backslashes, so Python's
template escaping is the identity on them).
-/

/-- Index of the first occurrence of `A` as a contiguous sublist of `s`
(the leftmost match position of the literal pattern `A`), if any. -/
def firstOcc (A : List Char) : List Char → Option Nat
  | [] => if A.isEmpty then some 0 else none
  | c :: rest =>
    if A.isPrefixOf (c :: rest) then some 0
    else (firstOcc A rest).map (· + 1)

/-- One fuelled pass of `re.sub(A + '.*?' + B, R, s, flags=re.DOTALL)`:
find the leftmost occurrence of `A`, then the earliest following
occurrence of `B`; replace that whole stretch by `R` and continue after
it.  If `A` has no occurrence, or no `B` follows its first occurrence,
the pattern has no match anywhere and the text is returned unchanged. -/
def reSubFuel (A B R : List Char) : Nat → List Char → List Char
  | 0, s => s
  | fuel + 1, s =>
    match firstOcc A s with
    | none => s
    | some i =>
      match firstOcc B (s.drop (i + A.length)) with
      | none => s
      | some j =>
        s.take i ++ R ++ reSubFuel A B R fuel ((s.drop (i + A.length)).drop (j + B.length))

/-- `re.sub(A + '.*?' + B, R, s, flags=re.DOTALL)` with a literal
replacement.  Each replacement consumes at least `A.length ≥ 1`
characters, so `s.length + 1` units of fuel always suffice. -/
def reSub (A B R s : List Char) : List Char :=
  reSubFuel A B R (s.length + 1) s

/-- Whether the pattern `A.*?B` (DOTALL) matches anywhere in `s`:
`A` occurs, and `B` occurs at or after the end of the first occurrence
of `A`.  (If no `B` follows the first `A`, none follows a later `A`
either, so this is exact.) -/
def hasMatch (A B s : List Char) : Bool :=
  match firstOcc A s with
  | none => false
  | some i => (firstOcc B (s.drop (i + A.length))).isSome

/-- Literal start marker of the activity region (line 187). -/
def ACTIVITY_START : List Char := "<!-- ACTIVITY_START -->".data

/-- Literal end marker of the activity region (line 188). -/
def ACTIVITY_END : List Char := "<!-- ACTIVITY_END -->".data

/-- Literal start marker of the stats region (line 192). -/
def STATS_START : List Char := "<!-- STATS_START -->".data

/-- Literal end marker of the stats region (line 193). -/
def STATS_END : List Char := "<!-- STATS_END -->".data

/-- Literal start marker of the date region (line 197). -/
def DATE_START : List Char := "<!-- DATE_START -->".data

/-- Literal end marker of the date region (line 198). -/
def DATE_END : List Char := "<!-- DATE_END -->".data

/-- Newline, as a one-character document fragment. -/
def nlChar : List Char := "\n".data

/-- Replacement text for the activity region (line 189):
`f"{activity_start}\n{activity_content}\n{activity_end}"`. -/
def activitySection (content : List Char) : List Char :=
  ACTIVITY_START ++ nlChar ++ content ++ nlChar ++ ACTIVITY_END

/-- Replacement text for the stats region (line 194):
`f"{stats_start}\n{stats_content}\n{stats_end}"`. -/
def statsSection (content : List Char) : List Char :=
  STATS_START ++ nlChar ++ content ++ nlChar ++ STATS_END

/-- Replacement text for the date region (line 199):
`f"{date_start}{...strftime(...)}{date_end}"` — note: no newlines. -/
def dateSection (date : List Char) : List Char :=
  DATE_START ++ date ++ DATE_END

/-- The pure core of `update_readme` (lines 186–223): the three
successive `re.sub` substitutions applied to the document text, in
order activity, stats, date.  The rendered date string is passed as a
parameter. -/
def update_readme (readme activity_content stats_content date_str : List Char) : List Char :=
  let r1 := reSub ACTIVITY_START ACTIVITY_END (activitySection activity_content) readme
  let r2 := reSub STATS_START STATS_END (statsSection stats_content) r1
  reSub DATE_START DATE_END (dateSection date_str) r2

/-! ### Basic lemmas about `reSub` -/

theorem reSubFuel_succ (A B R : List Char) (f : Nat) (s : List Char) :
    reSubFuel A B R (f + 1) s =
      match firstOcc A s with
      | none => s
      | some i =>
        match firstOcc B (s.drop (i + A.length)) with
        | none => s
        | some j =>
          s.take i ++ R ++ reSubFuel A B R f ((s.drop (i + A.length)).drop (j + B.length)) :=
  rfl

theorem reSubFuel_succ_some (A B R s : List Char) (f i : Nat)
    (h : firstOcc A s = some i) :
    reSubFuel A B R (f + 1) s =
      match firstOcc B (s.drop (i + A.length)) with
      | none => s
      | some j =>
        s.take i ++ R ++ reSubFuel A B R f ((s.drop (i + A.length)).drop (j + B.length)) := by
  rw [reSubFuel_succ, h]

theorem reSubFuel_succ_some_some (A B R s : List Char) (f i j : Nat)
    (h1 : firstOcc A s = some i)
    (h2 : firstOcc B (s.drop (i + A.length)) = some j) :
    reSubFuel A B R (f + 1) s =
      s.take i ++ R ++ reSubFuel A B R f ((s.drop (i + A.length)).drop (j + B.length)) := by
  rw [reSubFuel_succ_some A B R s f i h1, h2]

theorem reSubFuel_of_none (A B R : List Char) (s : List Char)
    (h : firstOcc A s = none) : ∀ f, reSubFuel A B R f s = s := by
  intro f
  cases f with
  | zero => rfl
  | succ f => rw [reSubFuel_succ, h]

theorem reSub_of_not_hasMatch (A B R s : List Char)
    (h : hasMatch A B s = false) : reSub A B R s = s := by
  unfold hasMatch at h
  unfold reSub
  cases hA : firstOcc A s with
  | none => exact reSubFuel_of_none A B R s hA _
  | some i =>
    rw [hA] at h
    simp only [Option.isSome] at h
    cases hB : firstOcc B (s.drop (i + A.length)) with
    | none => rw [reSubFuel_succ_some A B R s s.length i hA, hB]
    | some j => rw [hB] at h; simp at h

/-- The central replacement lemma: if the leftmost occurrence of `A`
in `s = p ++ A ++ m ++ B ++ q` is the displayed one, the earliest `B`
after it is the displayed one, and `A` does not occur in the remainder
`q`, then the substitution replaces exactly the displayed region. -/
theorem reSub_spec (A B R p m q s : List Char)
    (hs : s = p ++ A ++ m ++ B ++ q)
    (hA : firstOcc A s = some p.length)
    (hB : firstOcc B (m ++ B ++ q) = some m.length)
    (hq : firstOcc A q = none) :
    reSub A B R s = p ++ R ++ q := by
  subst hs
  have hdrop1 : (p ++ A ++ m ++ B ++ q).drop (p.length + A.length) = m ++ B ++ q := by
    have : p ++ A ++ m ++ B ++ q = (p ++ A) ++ (m ++ B ++ q) := by
      simp [List.append_assoc]
    rw [this, ← List.length_append]
    exact List.drop_left _ _
  have hdrop2 : (m ++ B ++ q).drop (m.length + B.length) = q := by
    have : m ++ B ++ q = (m ++ B) ++ q := by simp [List.append_assoc]
    rw [this, ← List.length_append]
    exact List.drop_left _ _
  have htake : (p ++ A ++ m ++ B ++ q).take p.length = p := by
    have : p ++ A ++ m ++ B ++ q = p ++ (A ++ m ++ B ++ q) := by
      simp [List.append_assoc]
    rw [this]
    exact List.take_left _ _
  unfold reSub
  rw [reSubFuel_succ_some_some A B R (p ++ A ++ m ++ B ++ q)
    (p ++ A ++ m ++ B ++ q).length p.length m.length hA (by rw [hdrop1, hB]),
    hdrop1, hdrop2, htake, reSubFuel_of_none A B R q hq]

/-- Characterisation of `update_readme` on a document whose three marker
pairs each delimit the displayed region and occur nowhere else (also not
inside the substituted contents): the activity and stats regions are
replaced by their newline-wrapped sections, the date region by its
section without newlines, and the four stretches `p1`–`p4` outside the
regions are kept verbatim. -/
theorem update_readme_unique_eq
    (p1 m1 p2 m2 p3 m3 p4 a s d : List Char)
    (h1 : firstOcc ACTIVITY_START (p1 ++ ACTIVITY_START ++ m1 ++ ACTIVITY_END ++ p2 ++
      STATS_START ++ m2 ++ STATS_END ++ p3 ++ DATE_START ++ m3 ++ DATE_END ++ p4) =
      some p1.length)
    (h2 : firstOcc ACTIVITY_END (m1 ++ ACTIVITY_END ++ (p2 ++ STATS_START ++ m2 ++
      STATS_END ++ p3 ++ DATE_START ++ m3 ++ DATE_END ++ p4)) = some m1.length)
    (h3 : firstOcc ACTIVITY_START (p2 ++ STATS_START ++ m2 ++ STATS_END ++ p3 ++
      DATE_START ++ m3 ++ DATE_END ++ p4) = none)
    (h4 : firstOcc STATS_START (p1 ++ activitySection a ++ p2 ++ STATS_START ++ m2 ++
      STATS_END ++ p3 ++ DATE_START ++ m3 ++ DATE_END ++ p4) =
      some (p1 ++ activitySection a ++ p2).length)
    (h5 : firstOcc STATS_END (m2 ++ STATS_END ++ (p3 ++ DATE_START ++ m3 ++ DATE_END ++ p4)) =
      some m2.length)
    (h6 : firstOcc STATS_START (p3 ++ DATE_START ++ m3 ++ DATE_END ++ p4) = none)
    (h7 : firstOcc DATE_START (p1 ++ activitySection a ++ p2 ++ statsSection s ++ p3 ++
      DATE_START ++ m3 ++ DATE_END ++ p4) =
      some (p1 ++ activitySection a ++ p2 ++ statsSection s ++ p3).length)
    (h8 : firstOcc DATE_END (m3 ++ DATE_END ++ p4) = some m3.length)
    (h9 : firstOcc DATE_START p4 = none) :
    update_readme (p1 ++ ACTIVITY_START ++ m1 ++ ACTIVITY_END ++ p2 ++ STATS_START ++ m2 ++
        STATS_END ++ p3 ++ DATE_START ++ m3 ++ DATE_END ++ p4) a s d =
      p1 ++ activitySection a ++ p2 ++ statsSection s ++ p3 ++ dateSection d ++ p4 := by
  have step1 : reSub ACTIVITY_START ACTIVITY_END (activitySection a)
      (p1 ++ ACTIVITY_START ++ m1 ++ ACTIVITY_END ++ p2 ++ STATS_START ++ m2 ++
        STATS_END ++ p3 ++ DATE_START ++ m3 ++ DATE_END ++ p4) =
      p1 ++ activitySection a ++ (p2 ++ STATS_START ++ m2 ++ STATS_END ++ p3 ++
        DATE_START ++ m3 ++ DATE_END ++ p4) :=
    reSub_spec ACTIVITY_START ACTIVITY_END (activitySection a) p1 m1
      (p2 ++ STATS_START ++ m2 ++ STATS_END ++ p3 ++ DATE_START ++ m3 ++ DATE_END ++ p4)
      (p1 ++ ACTIVITY_START ++ m1 ++ ACTIVITY_END ++ p2 ++ STATS_START ++ m2 ++
        STATS_END ++ p3 ++ DATE_START ++ m3 ++ DATE_END ++ p4)
      (by simp [List.append_assoc]) h1 h2 h3
  have step2 : reSub STATS_START STATS_END (statsSection s)
      (p1 ++ activitySection a ++ p2 ++ STATS_START ++ m2 ++ STATS_END ++ p3 ++
        DATE_START ++ m3 ++ DATE_END ++ p4) =
      (p1 ++ activitySection a ++ p2) ++ statsSection s ++
        (p3 ++ DATE_START ++ m3 ++ DATE_END ++ p4) :=
    reSub_spec STATS_START STATS_END (statsSection s) (p1 ++ activitySection a ++ p2) m2
      (p3 ++ DATE_START ++ m3 ++ DATE_END ++ p4)
      (p1 ++ activitySection a ++ p2 ++ STATS_START ++ m2 ++ STATS_END ++ p3 ++
        DATE_START ++ m3 ++ DATE_END ++ p4)
      (by simp [List.append_assoc]) h4 h5 h6
  have step3 : reSub DATE_START DATE_END (dateSection d)
      (p1 ++ activitySection a ++ p2 ++ statsSection s ++ p3 ++ DATE_START ++ m3 ++
        DATE_END ++ p4) =
      (p1 ++ activitySection a ++ p2 ++ statsSection s ++ p3) ++ dateSection d ++ p4 :=
    reSub_spec DATE_START DATE_END (dateSection d)
      (p1 ++ activitySection a ++ p2 ++ statsSection s ++ p3) m3 p4
      (p1 ++ activitySection a ++ p2 ++ statsSection s ++ p3 ++ DATE_START ++ m3 ++
        DATE_END ++ p4)
      (by simp [List.append_assoc]) h7 h8 h9
  show reSub DATE_START DATE_END (dateSection d)
      (reSub STATS_START STATS_END (statsSection s)
        (reSub ACTIVITY_START ACTIVITY_END (activitySection a) _)) = _
  rw [step1]
  rw [show p1 ++ activitySection a ++ (p2 ++ STATS_START ++ m2 ++ STATS_END ++ p3 ++
    DATE_START ++ m3 ++ DATE_END ++ p4) = p1 ++ activitySection a ++ p2 ++ STATS_START ++
    m2 ++ STATS_END ++ p3 ++ DATE_START ++ m3 ++ DATE_END ++ p4 from by
      simp [List.append_assoc]]
  rw [step2]
  rw [show (p1 ++ activitySection a ++ p2) ++ statsSection s ++ (p3 ++ DATE_START ++ m3 ++
    DATE_END ++ p4) = p1 ++ activitySection a ++ p2 ++ statsSection s ++ p3 ++ DATE_START ++
    m3 ++ DATE_END ++ p4 from by simp [List.append_assoc]]
  rw [step3]

/-! ### Claim theorems about document patching -/

/-- C1 counterexample: the date region is NOT replaced by
`start-marker + newline + content + newline + end-marker`; line 199 of
the source builds the date section without newlines, so the claim fails
on a document holding all three marker pairs.  The second conjunct
records what the code actually produces. -/
theorem update_readme_date_no_newline_cex :
    update_readme ("A<!-- ACTIVITY_START -->x<!-- ACTIVITY_END -->B<!-- STATS_START -->y<!-- STATS_END -->C<!-- DATE_START -->z<!-- DATE_END -->D").data
        "a".data "s".data "d".data ≠
      ("A<!-- ACTIVITY_START -->\na\n<!-- ACTIVITY_END -->B<!-- STATS_START -->\ns\n<!-- STATS_END -->C<!-- DATE_START -->\nd\n<!-- DATE_END -->D").data
    ∧ update_readme ("A<!-- ACTIVITY_START -->x<!-- ACTIVITY_END -->B<!-- STATS_START -->y<!-- STATS_END -->C<!-- DATE_START -->z<!-- DATE_END -->D").data
        "a".data "s".data "d".data =
      ("A<!-- ACTIVITY_START -->\na\n<!-- ACTIVITY_END -->B<!-- STATS_START -->\ns\n<!-- STATS_END -->C<!-- DATE_START -->d<!-- DATE_END -->D").data :=
  ⟨by decide, by decide⟩

/-- C1 (amended): on a document where each marker pair delimits its
displayed region and occurs nowhere else, `update_readme` replaces the
activity and stats regions (markers included) by
`start-marker + newline + content + newline + end-marker`, and the date
region by `start-marker + content + end-marker` (no newlines). -/
theorem update_readme_replaces_regions
    (p1 m1 p2 m2 p3 m3 p4 a s d : List Char)
    (h1 : firstOcc ACTIVITY_START (p1 ++ ACTIVITY_START ++ m1 ++ ACTIVITY_END ++ p2 ++
      STATS_START ++ m2 ++ STATS_END ++ p3 ++ DATE_START ++ m3 ++ DATE_END ++ p4) =
      some p1.length)
    (h2 : firstOcc ACTIVITY_END (m1 ++ ACTIVITY_END ++ (p2 ++ STATS_START ++ m2 ++
      STATS_END ++ p3 ++ DATE_START ++ m3 ++ DATE_END ++ p4)) = some m1.length)
    (h3 : firstOcc ACTIVITY_START (p2 ++ STATS_START ++ m2 ++ STATS_END ++ p3 ++
      DATE_START ++ m3 ++ DATE_END ++ p4) = none)
    (h4 : firstOcc STATS_START (p1 ++ activitySection a ++ p2 ++ STATS_START ++ m2 ++
      STATS_END ++ p3 ++ DATE_START ++ m3 ++ DATE_END ++ p4) =
      some (p1 ++ activitySection a ++ p2).length)
    (h5 : firstOcc STATS_END (m2 ++ STATS_END ++ (p3 ++ DATE_START ++ m3 ++ DATE_END ++ p4)) =
      some m2.length)
    (h6 : firstOcc STATS_START (p3 ++ DATE_START ++ m3 ++ DATE_END ++ p4) = none)
    (h7 : firstOcc DATE_START (p1 ++ activitySection a ++ p2 ++ statsSection s ++ p3 ++
      DATE_START ++ m3 ++ DATE_END ++ p4) =
      some (p1 ++ activitySection a ++ p2 ++ statsSection s ++ p3).length)
    (h8 : firstOcc DATE_END (m3 ++ DATE_END ++ p4) = some m3.length)
    (h9 : firstOcc DATE_START p4 = none) :
    update_readme (p1 ++ ACTIVITY_START ++ m1 ++ ACTIVITY_END ++ p2 ++ STATS_START ++ m2 ++
        STATS_END ++ p3 ++ DATE_START ++ m3 ++ DATE_END ++ p4) a s d =
      p1 ++ activitySection a ++ p2 ++ statsSection s ++ p3 ++ dateSection d ++ p4 :=
  update_readme_unique_eq p1 m1 p2 m2 p3 m3 p4 a s d h1 h2 h3 h4 h5 h6 h7 h8 h9

theorem update_readme_replaces_regions_witness :
    update_readme ("P".data ++ ACTIVITY_START ++ "x".data ++ ACTIVITY_END ++ "Q".data ++
        STATS_START ++ "y".data ++ STATS_END ++ "R".data ++ DATE_START ++ "z".data ++
        DATE_END ++ "T".data) "AA".data "BB".data "CC".data =
      "P".data ++ activitySection "AA".data ++ "Q".data ++ statsSection "BB".data ++
        "R".data ++ dateSection "CC".data ++ "T".data :=
  update_readme_replaces_regions "P".data "x".data "Q".data "y".data "R".data "z".data
    "T".data "AA".data "BB".data "CC".data (by decide) (by decide) (by decide) (by decide)
    (by decide) (by decide) (by decide) (by decide) (by decide)

/-- C2: on a document where each marker pair delimits its displayed
region and occurs nowhere else, the three substitutions of
`update_readme` leave every character outside the three marker-delimited
regions (`p1`, `p2`, `p3`, `p4`) unchanged. -/
theorem update_readme_frame
    (p1 m1 p2 m2 p3 m3 p4 a s d : List Char)
    (h1 : firstOcc ACTIVITY_START (p1 ++ ACTIVITY_START ++ m1 ++ ACTIVITY_END ++ p2 ++
      STATS_START ++ m2 ++ STATS_END ++ p3 ++ DATE_START ++ m3 ++ DATE_END ++ p4) =
      some p1.length)
    (h2 : firstOcc ACTIVITY_END (m1 ++ ACTIVITY_END ++ (p2 ++ STATS_START ++ m2 ++
      STATS_END ++ p3 ++ DATE_START ++ m3 ++ DATE_END ++ p4)) = some m1.length)
    (h3 : firstOcc ACTIVITY_START (p2 ++ STATS_START ++ m2 ++ STATS_END ++ p3 ++
      DATE_START ++ m3 ++ DATE_END ++ p4) = none)
    (h4 : firstOcc STATS_START (p1 ++ activitySection a ++ p2 ++ STATS_START ++ m2 ++
      STATS_END ++ p3 ++ DATE_START ++ m3 ++ DATE_END ++ p4) =
      some (p1 ++ activitySection a ++ p2).length)
    (h5 : firstOcc STATS_END (m2 ++ STATS_END ++ (p3 ++ DATE_START ++ m3 ++ DATE_END ++ p4)) =
      some m2.length)
    (h6 : firstOcc STATS_START (p3 ++ DATE_START ++ m3 ++ DATE_END ++ p4) = none)
    (h7 : firstOcc DATE_START (p1 ++ activitySection a ++ p2 ++ statsSection s ++ p3 ++
      DATE_START ++ m3 ++ DATE_END ++ p4) =
      some (p1 ++ activitySection a ++ p2 ++ statsSection s ++ p3).length)
    (h8 : firstOcc DATE_END (m3 ++ DATE_END ++ p4) = some m3.length)
    (h9 : firstOcc DATE_START p4 = none) :
    ∃ x y z : List Char,
      update_readme (p1 ++ ACTIVITY_START ++ m1 ++ ACTIVITY_END ++ p2 ++ STATS_START ++
          m2 ++ STATS_END ++ p3 ++ DATE_START ++ m3 ++ DATE_END ++ p4) a s d =
        p1 ++ x ++ p2 ++ y ++ p3 ++ z ++ p4 :=
  ⟨activitySection a, statsSection s, dateSection d,
    update_readme_unique_eq p1 m1 p2 m2 p3 m3 p4 a s d h1 h2 h3 h4 h5 h6 h7 h8 h9⟩

theorem update_readme_frame_witness :
    ∃ x y z : List Char,
      update_readme ("E1".data ++ ACTIVITY_START ++ "u".data ++ ACTIVITY_END ++ "E2".data ++
          STATS_START ++ "v".data ++ STATS_END ++ "E3".data ++ DATE_START ++ "w".data ++
          DATE_END ++ "E4".data) "act".data "sta".data "dat".data =
        "E1".data ++ x ++ "E2".data ++ y ++ "E3".data ++ z ++ "E4".data :=
  update_readme_frame "E1".data "u".data "E2".data "v".data "E3".data "w".data "E4".data
    "act".data "sta".data "dat".data (by decide) (by decide) (by decide) (by decide)
    (by decide) (by decide) (by decide) (by decide) (by decide)

/-- C3: replacing a marker-delimited region twice with the same marker
pair and the same replacement (of the shape produced by
`update_readme`: start marker, then content, then end marker) gives the
same document as replacing it once, provided the marker pair delimits a
unique region and the spliced content does not itself produce marker
occurrences. -/
theorem reSub_same_replacement_idempotent (A B mid p m q : List Char)
    (h1 : firstOcc A (p ++ A ++ m ++ B ++ q) = some p.length)
    (h2 : firstOcc B (m ++ B ++ q) = some m.length)
    (h3 : firstOcc A q = none)
    (h4 : firstOcc A (p ++ A ++ mid ++ B ++ q) = some p.length)
    (h5 : firstOcc B (mid ++ B ++ q) = some mid.length) :
    reSub A B (A ++ mid ++ B) (reSub A B (A ++ mid ++ B) (p ++ A ++ m ++ B ++ q)) =
      reSub A B (A ++ mid ++ B) (p ++ A ++ m ++ B ++ q) := by
  have e1 : reSub A B (A ++ mid ++ B) (p ++ A ++ m ++ B ++ q) = p ++ (A ++ mid ++ B) ++ q :=
    reSub_spec A B (A ++ mid ++ B) p m q (p ++ A ++ m ++ B ++ q) rfl h1 h2 h3
  have e2 : reSub A B (A ++ mid ++ B) (p ++ A ++ mid ++ B ++ q) = p ++ (A ++ mid ++ B) ++ q :=
    reSub_spec A B (A ++ mid ++ B) p mid q (p ++ A ++ mid ++ B ++ q) rfl h4 h5 h3
  have e3 : p ++ (A ++ mid ++ B) ++ q = p ++ A ++ mid ++ B ++ q := by
    simp [List.append_assoc]
  rw [e1, e3, e2, e3]

theorem reSub_same_replacement_idempotent_witness :
    reSub DATE_START DATE_END (DATE_START ++ "20".data ++ DATE_END)
        (reSub DATE_START DATE_END (DATE_START ++ "20".data ++ DATE_END)
          ("C".data ++ DATE_START ++ "old".data ++ DATE_END ++ "D".data)) =
      reSub DATE_START DATE_END (DATE_START ++ "20".data ++ DATE_END)
        ("C".data ++ DATE_START ++ "old".data ++ DATE_END ++ "D".data) :=
  reSub_same_replacement_idempotent DATE_START DATE_END "20".data "C".data "old".data
    "D".data (by decide) (by decide) (by decide) (by decide) (by decide)

/-- C9: if one of the three marker pairs of `update_readme` is absent
from the document (its pattern has no match: the start marker never
occurs, or no end marker follows it), the substitution for that pair
matches zero regions and returns the document unchanged; no error is
raised (the model is a total function). -/
theorem reSub_absent_pair_noop (A B R doc : List Char)
    (hpair : (A, B) = (ACTIVITY_START, ACTIVITY_END) ∨
      (A, B) = (STATS_START, STATS_END) ∨ (A, B) = (DATE_START, DATE_END))
    (habs : hasMatch A B doc = false) :
    reSub A B R doc = doc :=
  reSub_of_not_hasMatch A B R doc habs

theorem reSub_absent_pair_noop_witness :
    reSub ACTIVITY_START ACTIVITY_END "replacement".data "plain readme text".data =
      "plain readme text".data :=
  reSub_absent_pair_noop ACTIVITY_START ACTIVITY_END "replacement".data
    "plain readme text".data (Or.inl rfl) (by decide)

/-!
### Event aggregation (`analyze_events`, lines 63–113)

A raw GitHub event is a JSON object; the script reads a fixed set of
possibly-absent fields from it.  Each such field is modelled as an
`Option`: `none` means the key is missing, in which case the script's
unguarded `[...]` lookup raises `KeyError` — modelled by the aggregation
returning `none`.  `payload['commits']` is read with
`.get('commits', [])` (a defaulted lookup) and
`payload['pull_request'].get('merged')` with a defaulted inner lookup,
so those appear as `Option`s consumed with defaults.  Timestamps are
UTC epoch seconds (`Int`); `datetime` subtraction of
`timedelta(days=30)` is subtraction of `30 * 86400` seconds, and the
`'%Y-%m-%d'` day key of a (non-negative) timestamp is its epoch-day
number `t / 86400`.
-/

/-- Fields of `event['payload']` read by the script. -/
structure Payload where
  action : Option String
  pull_request : Option (Option Bool)
  commits : Option (List String)
  ref_type : Option String
  deriving DecidableEq

/-- Fields of an event read by the script: `created_at` (parsed
timestamp), `type`, `repo.name`, and the payload fields. -/
structure Event where
  created_at : Option Int
  type : Option String
  repo_name : Option String
  payload : Payload
  deriving DecidableEq

/-- The statistics record built by `analyze_events` (lines 67–78).
`repos_contributed` is kept as the set itself; line 112 finally
replaces it by its cardinality, which theorems express with `.card`.
`events_by_day` models the `defaultdict(int)` keyed by epoch day. -/
structure Stats where
  commits : Nat
  prs_opened : Nat
  prs_merged : Nat
  issues_opened : Nat
  issues_commented : Nat
  repos_contributed : Finset String
  review_comments : Nat
  stars_given : Nat
  repos_created : Nat
  events_by_day : List (Int × Nat)
  deriving DecidableEq

/-- The zeroed statistics record (lines 67–78). -/
def initStats : Stats :=
  { commits := 0, prs_opened := 0, prs_merged := 0, issues_opened := 0,
    issues_commented := 0, repos_contributed := ∅, review_comments := 0,
    stars_given := 0, repos_created := 0, events_by_day := [] }

/-- `stats['events_by_day'][day_key] += 1` on the association-list model
of the day-count dictionary. -/
def bumpDay : List (Int × Nat) → Int → List (Int × Nat)
  | [], k => [(k, 1)]
  | (k', v) :: rest, k =>
    if k = k' then (k', v + 1) :: rest else (k', v) :: bumpDay rest k

/-- One iteration of the `for event in events` loop of `analyze_events`
(lines 80–110), returning `none` when an unguarded dictionary lookup
would raise.  Branch order and guard order follow the source. -/
def processEvent (th : Int) (st : Stats) (e : Event) : Option Stats :=
  match e.created_at with
  | none => none
  | some t =>
    if t < th then some st
    else
      match e.type with
      | none => none
      | some ty =>
        match e.repo_name with
        | none => none
        | some rn =>
          let st := { st with
            events_by_day := bumpDay st.events_by_day (t / 86400),
            repos_contributed := insert rn st.repos_contributed }
          if ty = "PushEvent" then
            some { st with commits := st.commits + (e.payload.commits.getD []).length }
          else if ty = "PullRequestEvent" then
            match e.payload.action with
            | none => none
            | some act =>
              if act = "opened" then some { st with prs_opened := st.prs_opened + 1 }
              else if act = "closed" then
                match e.payload.pull_request with
                | none => none
                | some merged =>
                  if merged.getD false then
                    some { st with prs_merged := st.prs_merged + 1 }
                  else some st
              else some st
          else if ty = "IssuesEvent" then
            match e.payload.action with
            | none => none
            | some act =>
              if act = "opened" then some { st with issues_opened := st.issues_opened + 1 }
              else some st
          else if ty = "IssueCommentEvent" then
            some { st with issues_commented := st.issues_commented + 1 }
          else if ty = "PullRequestReviewCommentEvent" then
            some { st with review_comments := st.review_comments + 1 }
          else if ty = "WatchEvent" then
            some { st with stars_given := st.stars_given + 1 }
          else if ty = "CreateEvent" then
            match e.payload.ref_type with
            | none => none
            | some rt =>
              if rt = "repository" then some { st with repos_created := st.repos_created + 1 }
              else some st
          else some st

/-- The 30-day window boundary `thirty_days_ago` (line 65). -/
def thirtyDaysAgo (now : Int) : Int := now - 30 * 86400

/-- `analyze_events` (lines 63–113): fold the per-event step over the
event list starting from the zeroed record; `none` models an uncaught
`KeyError` from a missing field. -/
def analyze_events (now : Int) (events : List Event) : Option Stats :=
  events.foldlM (fun st e => processEvent (thirtyDaysAgo now) st e) initStats

/-- An event is inside the 30-day window iff its timestamp is present
and not strictly before the boundary (line 84 skips the rest). -/
def inWindow (th : Int) (e : Event) : Bool :=
  match e.created_at with
  | none => false
  | some t => decide (th ≤ t)

/-- Commits contributed by one event: the length of the (defaulted)
commit list for a `PushEvent`, zero otherwise (line 95). -/
def commitCount (e : Event) : Nat :=
  if e.type == some "PushEvent" then (e.payload.commits.getD []).length else 0

/-- Total commits over an event list: sum of each event's commit-list
length over push events. -/
def pushCommitSum (events : List Event) : Nat :=
  (events.map commitCount).sum

/-- The field-presence precondition under which every lookup performed
by `analyze_events` is guarded: `created_at`, `type` and `repo.name`
always; `payload.action` for pull-request and issues events;
`payload.pull_request` for closed pull-request events;
`payload.ref_type` for create events. -/
def wellFormed (e : Event) : Bool :=
  e.created_at.isSome && e.type.isSome && e.repo_name.isSome &&
    (match e.type with
     | none => false
     | some ty =>
       (if ty = "PullRequestEvent" then
          e.payload.action.isSome &&
            (!(e.payload.action == some "closed") || e.payload.pull_request.isSome)
        else true) &&
       (if ty = "IssuesEvent" then e.payload.action.isSome else true) &&
       (if ty = "CreateEvent" then e.payload.ref_type.isSome else true))

/-- Characterisation of one successful loop iteration: the event has a
timestamp; if it is out of window the record is returned unchanged,
otherwise the repository name is inserted into the contribution set and
the commit counter grows by the event's commit contribution. -/
theorem processEvent_some_char (th : Int) (st : Stats) (e : Event) (st1 : Stats)
    (hp : processEvent th st e = some st1) :
    ∃ t, e.created_at = some t ∧
      ((t < th ∧ st1 = st) ∨
       (th ≤ t ∧ ∃ rn, e.repo_name = some rn ∧
          st1.repos_contributed = insert rn st.repos_contributed ∧
          st1.commits = st.commits + commitCount e)) := by
  cases hct : e.created_at with
  | none => rw [processEvent, hct] at hp; exact absurd hp (by simp)
  | some t =>
    refine ⟨t, rfl, ?_⟩
    by_cases hlt : t < th
    · left
      simp only [processEvent, hct, if_pos hlt] at hp
      exact ⟨hlt, (Option.some.inj hp).symm⟩
    · right
      refine ⟨le_of_not_lt hlt, ?_⟩
      cases hty : e.type with
      | none =>
        simp only [processEvent, hct, hty, if_neg hlt] at hp
        exact absurd hp (by simp)
      | some ty =>
        cases hrn : e.repo_name with
        | none =>
          simp only [processEvent, hct, hty, hrn, if_neg hlt] at hp
          exact absurd hp (by simp)
        | some rn =>
          refine ⟨rn, rfl, ?_⟩
          simp only [processEvent, hct, hty, hrn, if_neg hlt] at hp
          have hcc : commitCount e =
              if ty = "PushEvent" then (e.payload.commits.getD []).length else 0 := by
            simp [commitCount, hty]
          rw [hcc]
          repeat' split at hp
          all_goals simp_all
          all_goals (subst hp; exact ⟨rfl, rfl⟩)

/-- Fold invariant for the event loop: a successful fold over any event
list equals the fold over just the in-window events, accumulates the
in-window repository names into the contribution set, and adds the
in-window push-commit total to the commit counter. -/
theorem foldlM_processEvent_spec (th : Int) :
    ∀ (events : List Event) (st0 st : Stats),
      List.foldlM (fun st e => processEvent th st e) st0 events = some st →
      List.foldlM (fun st e => processEvent th st e) st0 (events.filter (inWindow th)) = some st
      ∧ st.repos_contributed = st0.repos_contributed ∪
          ((events.filter (inWindow th)).filterMap Event.repo_name).toFinset
      ∧ st.commits = st0.commits + pushCommitSum (events.filter (inWindow th)) := by
  intro events
  induction events with
  | nil =>
    intro st0 st h
    simp only [List.foldlM_nil] at h
    obtain rfl : st0 = st := by simpa using h
    simp [pushCommitSum]
  | cons e l ih =>
    intro st0 st h
    rw [List.foldlM_cons] at h
    cases hp : processEvent th st0 e with
    | none => rw [hp] at h; simp at h
    | some st1 =>
      rw [hp] at h
      simp only [Option.bind_eq_bind, Option.some_bind] at h
      obtain ⟨t, hct, hcase⟩ := processEvent_some_char th st0 e st1 hp
      cases hcase with
      | inl hout =>
        obtain ⟨hlt, rfl⟩ := hout
        have hwin : inWindow th e = false := by
          simp only [inWindow, hct, decide_eq_false_iff_not]
          omega
        rw [List.filter_cons, if_neg (by rw [hwin]; simp)]
        exact ih st1 st h
      | inr hin =>
        obtain ⟨hle, rn, hrn, hrepos, hcomm⟩ := hin
        have hwin : inWindow th e = true := by
          simp [inWindow, hct, hle]
        obtain ⟨ih1, ih2, ih3⟩ := ih st1 st h
        rw [List.filter_cons, if_pos (by rw [hwin])]
        refine ⟨?_, ?_, ?_⟩
        · rw [List.foldlM_cons, hp]
          simpa using ih1
        · rw [ih2, hrepos, List.filterMap_cons, hrn]
          simp [Finset.insert_union, Finset.union_insert]
        · rw [ih3, hcomm, pushCommitSum, pushCommitSum, List.map_cons, List.sum_cons]
          omega

/-- C4: whenever `analyze_events` succeeds, events wholly before the
30-day boundary are ignored (dropping them changes nothing), the
distinct-repository count equals the cardinality of the set of
repository names across in-window events, and the commit total equals
the sum over in-window push events of their commit-list lengths. -/
theorem analyze_events_window_spec (now : Int) (events : List Event) (st : Stats)
    (h : analyze_events now events = some st) :
    analyze_events now (events.filter (inWindow (thirtyDaysAgo now))) = some st
    ∧ st.repos_contributed.card =
        ((events.filter (inWindow (thirtyDaysAgo now))).filterMap Event.repo_name).toFinset.card
    ∧ st.commits = pushCommitSum (events.filter (inWindow (thirtyDaysAgo now))) := by
  obtain ⟨h1, h2, h3⟩ :=
    foldlM_processEvent_spec (thirtyDaysAgo now) events initStats st h
  refine ⟨h1, ?_, ?_⟩
  · rw [h2]
    simp [initStats]
  · rw [h3]
    simp [initStats]

/-- Concrete in-window watch event used by witnesses. -/
def wEvent : Event :=
  { created_at := some 0, type := some "WatchEvent", repo_name := some "r",
    payload := { action := none, pull_request := none, commits := none, ref_type := none } }

/-- The record `analyze_events` produces on `[wEvent]` at `now`
30 days after the epoch. -/
def wStats : Stats :=
  { initStats with
    stars_given := 1,
    repos_contributed := insert "r" ∅,
    events_by_day := [(0, 1)] }

theorem analyze_events_window_spec_witness :
    analyze_events 2592000 [wEvent] = some wStats ∧
      wStats.repos_contributed.card =
        (([wEvent].filter (inWindow (thirtyDaysAgo 2592000))).filterMap
          Event.repo_name).toFinset.card :=
  ⟨by decide, (analyze_events_window_spec 2592000 [wEvent] wStats (by decide)).2.1⟩

/-- Any single loop iteration succeeds on a well-formed event. -/
theorem processEvent_total (th : Int) (st : Stats) (e : Event)
    (hw : wellFormed e = true) : (processEvent th st e).isSome = true := by
  cases hct : e.created_at with
  | none => rw [wellFormed, hct] at hw; simp at hw
  | some t =>
    by_cases hlt : t < th
    · simp [processEvent, hct, hlt]
    · cases hty : e.type with
      | none => rw [wellFormed, hty] at hw; simp at hw
      | some ty =>
        cases hrn : e.repo_name with
        | none => rw [wellFormed, hrn] at hw; simp at hw
        | some rn =>
          rw [wellFormed, hct, hty, hrn] at hw
          simp only [Option.isSome_some, Bool.true_and, Bool.and_eq_true] at hw
          simp only [processEvent, hct, hty, hrn, if_neg hlt]
          repeat' split
          all_goals simp_all

/-- The whole fold succeeds when every event is well-formed. -/
theorem foldlM_processEvent_total (th : Int) :
    ∀ (events : List Event) (st0 : Stats),
      (∀ e ∈ events, wellFormed e = true) →
      (List.foldlM (fun st e => processEvent th st e) st0 events).isSome = true := by
  intro events
  induction events with
  | nil => intro st0 _; simp
  | cons e l ih =>
    intro st0 h
    rw [List.foldlM_cons]
    have he := processEvent_total th st0 e (h e (List.mem_cons_self e l))
    cases hp : processEvent th st0 e with
    | none => rw [hp] at he; simp at he
    | some st1 =>
      simp only [hp, Option.bind_eq_bind, Option.some_bind]
      exact ih st1 (fun e' he' => h e' (List.mem_cons_of_mem e he'))

/-- Event lacking `created_at` (line 81 would raise `KeyError`). -/
def evNoCreated : Event :=
  { created_at := none, type := some "WatchEvent", repo_name := some "r",
    payload := { action := none, pull_request := none, commits := none, ref_type := none } }

/-- Event lacking `type` (line 87 would raise `KeyError`). -/
def evNoType : Event :=
  { created_at := some 0, type := none, repo_name := some "r",
    payload := { action := none, pull_request := none, commits := none, ref_type := none } }

/-- Event lacking `repo.name` (line 88 would raise `KeyError`). -/
def evNoRepo : Event :=
  { created_at := some 0, type := some "WatchEvent", repo_name := none,
    payload := { action := none, pull_request := none, commits := none, ref_type := none } }

/-- Pull-request event lacking `payload.action` (line 97). -/
def evPrNoAction : Event :=
  { created_at := some 0, type := some "PullRequestEvent", repo_name := some "r",
    payload := { action := none, pull_request := none, commits := none, ref_type := none } }

/-- Closed pull-request event lacking `payload.pull_request` (line 99). -/
def evPrClosedNoPR : Event :=
  { created_at := some 0, type := some "PullRequestEvent", repo_name := some "r",
    payload := { action := some "closed", pull_request := none, commits := none,
                 ref_type := none } }

/-- Issues event lacking `payload.action` (line 101). -/
def evIssuesNoAction : Event :=
  { created_at := some 0, type := some "IssuesEvent", repo_name := some "r",
    payload := { action := none, pull_request := none, commits := none, ref_type := none } }

/-- Create event lacking `payload.ref_type` (line 109). -/
def evCreateNoRefType : Event :=
  { created_at := some 0, type := some "CreateEvent", repo_name := some "r",
    payload := { action := none, pull_request := none, commits := none, ref_type := none } }

/-- C10: under the field-presence precondition `wellFormed`,
`analyze_events` is total (returns a record); dropping any of the listed
fields on an in-window event of the matching kind makes it fail (the
unguarded lookups raise); and a push event whose payload has no commit
list contributes zero commits without failing. -/
theorem analyze_events_field_presence (now : Int) (events : List Event)
    (h : ∀ e ∈ events, wellFormed e = true) :
    (analyze_events now events).isSome = true
    ∧ (analyze_events 0 [evNoCreated]).isSome = false
    ∧ (analyze_events 0 [evNoType]).isSome = false
    ∧ (analyze_events 0 [evNoRepo]).isSome = false
    ∧ (analyze_events 0 [evPrNoAction]).isSome = false
    ∧ (analyze_events 0 [evPrClosedNoPR]).isSome = false
    ∧ (analyze_events 0 [evIssuesNoAction]).isSome = false
    ∧ (analyze_events 0 [evCreateNoRefType]).isSome = false
    ∧ (∀ (e : Event) (t : Int) (rn : String),
        e.created_at = some t → thirtyDaysAgo now ≤ t → e.type = some "PushEvent" →
        e.repo_name = some rn → e.payload.commits = none →
        (analyze_events now [e]).map Stats.commits = some 0) := by
  refine ⟨foldlM_processEvent_total (thirtyDaysAgo now) events initStats h,
    by decide, by decide, by decide, by decide, by decide, by decide, by decide, ?_⟩
  intro e t rn hct hle hty hrn hcm
  simp [analyze_events, List.foldlM_cons, List.foldlM_nil, processEvent, hct, hty, hrn,
    hcm, if_neg (not_lt.mpr hle), initStats]

theorem analyze_events_field_presence_witness :
    (analyze_events 0 [wEvent]).isSome = true :=
  (analyze_events_field_presence 0 [wEvent] (by decide)).1

/-!
### Activity chart (`create_activity_chart`, lines 115–141)

Day keys are modelled as epoch-day numbers (`Int`); `today` is the
epoch-day of `datetime.utcnow()` and `today - timedelta(days=i)` is
`today - i`.  The per-day dictionary is an association list.  The
source computes `int((count / max_events) * 20)` in binary floating
point; for every `0 ≤ count ≤ max_events ≤ 2000` (far beyond the 300
events a run can ever fetch) that value equals the exact
`count * 20 / max_events` in integer floor division, which is how
`barLength` renders it.
-/

/-- Month and day of a Gregorian calendar date from its epoch-day
number (the classic civil-from-days computation), used to render the
`'%m/%d'` label of `strftime`. -/
def civilFromDays (z : Int) : Nat × Nat :=
  let zn : Nat := (z + 719468).toNat
  let doe := zn % 146097
  let yoe := (doe - doe / 1460 + doe / 36524 - doe / 146096) / 365
  let doy := doe - (365 * yoe + yoe / 4 - yoe / 100)
  let mp := (5 * doy + 2) / 153
  let d := doy - (153 * mp + 2) / 5 + 1
  let m := if mp < 10 then mp + 3 else mp - 9
  (m, d)

/-- Two-digit zero-padded decimal rendering. -/
def pad2 (n : Nat) : String :=
  if n < 10 then "0" ++ toString n else toString n

/-- `datetime.strptime(day, '%Y-%m-%d').strftime('%m/%d')` (line 137)
on the epoch-day model. -/
def dateLabel (day : Int) : String :=
  pad2 (civilFromDays day).1 ++ "/" ++ pad2 (civilFromDays day).2

/-- `events_by_day.get(day, 0)` (line 134). -/
def lookupD (m : List (Int × Nat)) (k : Int) : Nat :=
  (List.lookup k m).getD 0

/-- `max(events_by_day.values())` (line 125): the maximum over ALL
entries of the dictionary, not only the 30 rendered days. -/
def maxValues (m : List (Int × Nat)) : Nat :=
  (m.map Prod.snd).foldl Nat.max 0

/-- `int((count / max_events) * 20) if max_events > 0 else 0`
(line 135), in exact integer arithmetic. -/
def barLength (count maxEvents : Nat) : Nat :=
  if 0 < maxEvents then count * 20 / maxEvents else 0

/-- The 30 rendered days, oldest first (line 122:
`[(today - timedelta(days=i)) for i in range(29, -1, -1)]`). -/
def chartDays (today : Int) : List Int :=
  (List.range 30).reverse.map (fun (i : Nat) => today - (i : Int))

/-- One chart line (line 138): `f"{date_label} │{bar} {count}"` with a
bar of `barLen` fill characters. -/
def chartLine (day : Int) (count barLen : Nat) : String :=
  dateLabel day ++ " │" ++ String.mk (List.replicate barLen '█') ++ " " ++ toString count

/-- The 30 per-day chart lines (the loop of lines 133–138). -/
def chartBodyLines (today : Int) (m : List (Int × Nat)) : List String :=
  (chartDays today).map (fun day =>
    chartLine day (lookupD m day)
      (barLength (lookupD m day) (if m.isEmpty then 1 else maxValues m)))

/-- `create_activity_chart` (lines 115–141): the fixed no-activity
message on an empty map, otherwise a fenced block with a header and one
line per rendered day. -/
def create_activity_chart (today : Int) (m : List (Int × Nat)) : String :=
  if m.isEmpty then "No activity in the last 30 days"
  else
    String.intercalate "\n"
      (["```", "Activity over the last 30 days:", ""] ++ chartBodyLines today m ++ ["```"])

/-- Modelled from the spec's words for claim C5: "max the maximum count
across the 30 rendered days" — the maximum of the counts the chart
actually displays, as opposed to `maxValues`, which the code computes
over the whole dictionary. -/
def renderedMax (today : Int) (m : List (Int × Nat)) : Nat :=
  ((chartDays today).map (lookupD m)).foldl Nat.max 0

/-- C8: on an empty per-day map the chart is exactly the fixed
no-activity message (line 118), not a chart block. -/
theorem create_activity_chart_empty (today : Int) :
    create_activity_chart today [] = "No activity in the last 30 days" := rfl

/-- C5 counterexample: the code scales bars by the maximum over ALL
dictionary entries (line 125), not over the 30 rendered days.  With an
out-of-window entry `(0, 10)` and `today = 100`, day 100 holds the
maximum rendered count 5, yet its bar has `barLength 5 10 = 10` fill
units instead of the 20 the claim predicts. -/
theorem create_activity_chart_rendered_max_cex :
    renderedMax 100 [((0 : Int), 10), ((100 : Int), 5)] = 5
    ∧ lookupD [((0 : Int), 10), ((100 : Int), 5)] 100 =
        renderedMax 100 [((0 : Int), 10), ((100 : Int), 5)]
    ∧ barLength 5 (renderedMax 100 [((0 : Int), 10), ((100 : Int), 5)]) = 20
    ∧ (chartBodyLines 100 [((0 : Int), 10), ((100 : Int), 5)])[29]? =
        some (chartLine 100 5 10)
    ∧ (chartBodyLines 100 [((0 : Int), 10), ((100 : Int), 5)])[29]? ≠
        some (chartLine 100 5
          (barLength 5 (renderedMax 100 [((0 : Int), 10), ((100 : Int), 5)]))) :=
  ⟨by decide, by decide, by decide, by decide, by decide⟩

/-- C5 (amended): on a non-empty map the chart renders one line per day
for the trailing 30 calendar days, oldest first; each day's bar has
`floor(count * 20 / max)` fill units where `max` is the maximum count
over ALL map entries; a count equal to that maximum yields exactly 20
fill units and smaller counts yield proportionally (monotonically)
shorter bars. -/
theorem create_activity_chart_spec (today : Int) (m : List (Int × Nat))
    (h : m.isEmpty = false) :
    create_activity_chart today m =
      String.intercalate "\n"
        (["```", "Activity over the last 30 days:", ""] ++ chartBodyLines today m ++ ["```"])
    ∧ (chartBodyLines today m).length = 30
    ∧ (∀ i : Nat, i < 30 →
        (chartBodyLines today m)[i]? =
          some (chartLine (today - 29 + (i : Int)) (lookupD m (today - 29 + (i : Int)))
            (barLength (lookupD m (today - 29 + (i : Int))) (maxValues m))))
    ∧ (0 < maxValues m → barLength (maxValues m) (maxValues m) = 20)
    ∧ (∀ c1 c2 : Nat, c1 ≤ c2 → barLength c1 (maxValues m) ≤ barLength c2 (maxValues m)) := by
  refine ⟨by simp [create_activity_chart, h],
    by rw [chartBodyLines, List.length_map, chartDays, List.length_map, List.length_reverse,
      List.length_range], ?_, ?_, ?_⟩
  · intro i hi
    have hd : (chartDays today)[i]? = some (today - 29 + (i : Int)) := by
      rw [chartDays, List.getElem?_map,
        List.getElem?_reverse (by simpa using hi), List.length_range,
        List.getElem?_range (by omega)]
      simp only [Option.map_some']
      congr 1
      omega
    rw [chartBodyLines, List.getElem?_map, hd]
    simp [h]
  · intro hpos
    rw [barLength, if_pos hpos]
    exact Nat.mul_div_cancel_left 20 hpos
  · intro c1 c2 hc
    rw [barLength, barLength]
    by_cases hpos : 0 < maxValues m
    · rw [if_pos hpos, if_pos hpos]
      exact Nat.div_le_div_right (Nat.mul_le_mul_right 20 hc)
    · rw [if_neg hpos, if_neg hpos]

theorem create_activity_chart_spec_witness :
    ([((0 : Int), 2)] : List (Int × Nat)).isEmpty = false ∧
      (chartBodyLines 0 [((0 : Int), 2)]).length = 30 :=
  ⟨by decide, (create_activity_chart_spec 0 [((0 : Int), 2)] (by decide)).2.1⟩

/-!
### Profile fetch and section rendering (lines 55–61, 143–177)
-/

/-- The profile fields `generate_stats_section` reads; each is optional
because the section renderer uses defaulted `.get(..., 0)` lookups. -/
structure ProfileRecord where
  followers : Option Nat
  public_repos : Option Nat
  public_gists : Option Nat
  deriving DecidableEq

/-- Outcome of the profile request: a parsed record on HTTP 200, or the
status code otherwise. -/
inductive ProfileResp where
  | success (r : ProfileRecord)
  | failure (status : Nat)

/-- The empty record `{}` returned on a non-success response. -/
def emptyProfile : ProfileRecord :=
  { followers := none, public_repos := none, public_gists := none }

/-- `fetch_user_stats` (lines 55–61): the response body on status 200,
an empty record otherwise; never raises. -/
def fetch_user_stats : ProfileResp → ProfileRecord
  | .success r => r
  | .failure _ => emptyProfile

/-- The lines of `generate_stats_section` (lines 162–177): three
profile badges (note the Total Stars badge reads `public_gists`), a
blank, a heading, a blank, and four highlight bullets. -/
def statsSectionLines (user : ProfileRecord) (recent : Stats) : List String :=
  ["![Followers](https://img.shields.io/badge/Followers-" ++
      toString (user.followers.getD 0) ++ "-blue?style=flat-square)",
   "![Public Repos](https://img.shields.io/badge/Public_Repos-" ++
      toString (user.public_repos.getD 0) ++ "-green?style=flat-square)",
   "![Total Stars](https://img.shields.io/badge/Total_Stars-" ++
      toString (user.public_gists.getD 0) ++ "-yellow?style=flat-square)",
   "",
   "### 📈 This Month\x27s Highlights",
   "",
   "- 🔨 **" ++ toString recent.commits ++ "** commits",
   "- 🔀 **" ++ toString recent.prs_opened ++ "** PRs opened",
   "- ⭐ **" ++ toString recent.stars_given ++ "** repositories starred",
   "- 📦 **" ++ toString recent.repos_created ++ "** new repositories created"]

/-- `generate_stats_section` (lines 162–177). -/
def generate_stats_section (user : ProfileRecord) (recent : Stats) : String :=
  String.intercalate "\n" (statsSectionLines user recent)

/-- The lines of `generate_activity_section` (lines 143–160). -/
def activitySectionLines (today : Int) (st : Stats) : List String :=
  ["### 🎯 Activity Summary",
   "",
   "- **" ++ toString st.commits ++ "** commits pushed",
   "- **" ++ toString st.prs_opened ++ "** pull requests opened",
   "- **" ++ toString st.issues_opened ++ "** issues opened",
   "- **" ++ toString st.issues_commented ++ "** issue comments",
   "- **" ++ toString st.review_comments ++ "** review comments",
   "- **" ++ toString st.repos_contributed.card ++ "** repositories contributed to",
   "",
   create_activity_chart today st.events_by_day]

/-- `generate_activity_section` (lines 143–160). -/
def generate_activity_section (today : Int) (st : Stats) : String :=
  String.intercalate "\n" (activitySectionLines today st)

/-- C7: a non-success profile response yields the empty record without
raising, and the stats section rendered from it shows zero for all
three profile badges (followers, public repos, gists), whatever the
recent statistics are. -/
theorem fetch_user_stats_failure_zero_badges (code : Nat) (recent : Stats) :
    fetch_user_stats (ProfileResp.failure code) = emptyProfile
    ∧ (statsSectionLines (fetch_user_stats (ProfileResp.failure code)) recent).take 3 =
        ["![Followers](https://img.shields.io/badge/Followers-0-blue?style=flat-square)",
         "![Public Repos](https://img.shields.io/badge/Public_Repos-0-green?style=flat-square)",
         "![Total Stars](https://img.shields.io/badge/Total_Stars-0-yellow?style=flat-square)"] :=
  ⟨rfl, by
    rw [show fetch_user_stats (ProfileResp.failure code) = emptyProfile from rfl]
    unfold statsSectionLines emptyProfile
    rfl⟩

/-!
### Event fetcher (`fetch_user_events`, lines 26–53)

The remote API is modelled as a function from page number to response.
The loop `while page <= 10` is rendered with a fuel argument counting
the remaining allowed pages, so `fetch_user_events` starts with fuel 10
at page 1.  Python re-reads `datetime.utcnow()` at every page boundary;
the model fixes a single `now`, the tolerance the spec itself documents
for the window boundary.  `page_events[-1]['created_at']` is an
unguarded lookup plus parse, so a final event without a timestamp makes
the model return `none` (an uncaught exception in the source).
-/

/-- Response for one page of the events endpoint: a non-200 status, or
the parsed page of events. -/
inductive PageResp where
  | failure (status : Nat)
  | success (events : List Event)

/-- The URL requested for one page (line 34): page size fixed at 30. -/
def eventsRequestUrl (username : String) (page : Nat) : String :=
  "https://api.github.com/users/" ++ username ++ "/events?page=" ++ toString page ++
    "&per_page=30"

/-- The body of the `while page <= 10` loop (lines 33–51), with `fuel`
pages still allowed: stop on a non-200 response (return what was
collected), stop on an empty page, extend with the page, then stop if
the oldest (last) event of the page is older than 30 days, else fetch
the next page. -/
def fetchLoop (now : Int) (api : Nat → PageResp) : Nat → Nat → List Event → Option (List Event)
  | 0, _, acc => some acc
  | fuel + 1, page, acc =>
    match api page with
    | .failure _ => some acc
    | .success pes =>
      if pes.isEmpty then some acc
      else
        match pes.getLast?.bind Event.created_at with
        | none => none
        | some t =>
          if t < now - 30 * 86400 then some (acc ++ pes)
          else fetchLoop now api fuel (page + 1) (acc ++ pes)

/-- `fetch_user_events` (lines 26–53): up to 10 pages starting at
page 1 with an empty accumulator. -/
def fetch_user_events (now : Int) (api : Nat → PageResp) : Option (List Event) :=
  fetchLoop now api 10 1 []

/-- The loop only ever queries the pages its fuel allows, so two APIs
agreeing on pages `page, …, page + fuel - 1` drive it identically. -/
theorem fetchLoop_congr (now : Int) (api api2 : Nat → PageResp) :
    ∀ (fuel page : Nat) (acc : List Event),
      (∀ p, page ≤ p → p < page + fuel → api p = api2 p) →
      fetchLoop now api fuel page acc = fetchLoop now api2 fuel page acc := by
  intro fuel
  induction fuel with
  | zero => intro page acc _; rfl
  | succ fuel ih =>
    intro page acc h
    have hpage : api page = api2 page := h page le_rfl (by omega)
    simp only [fetchLoop, ← hpage]
    cases hr : api page with
    | failure code => rfl
    | success pes =>
      by_cases he : pes.isEmpty
      · simp [he]
      · simp only [if_neg he]
        cases hl : pes.getLast?.bind Event.created_at with
        | none => rfl
        | some t =>
          dsimp only
          by_cases ht : t < now - 2592000
          · simp [ht]
          · simp [ht]
            exact ih (page + 1) (acc ++ pes) (fun p hp1 hp2 => h p (by omega) (by omega))

/-- C6: the fetch loop stops exactly when a page is empty, when the
oldest (last) event of a page is older than the 30-day window, or when
the 10-page fuel is exhausted; on a non-success response it stops and
returns the events collected so far without raising; otherwise it
continues with the next page; and the whole fetch never consults a page
beyond the 10-page ceiling (two APIs agreeing on pages 1–10 give equal
results). -/
theorem fetch_user_events_stop_conditions (now : Int) (api : Nat → PageResp)
    (fuel page : Nat) (acc pes : List Event) (t : Int) (code : Nat) :
    (api page = PageResp.failure code → fetchLoop now api (fuel + 1) page acc = some acc)
    ∧ (api page = PageResp.success [] → fetchLoop now api (fuel + 1) page acc = some acc)
    ∧ fetchLoop now api 0 page acc = some acc
    ∧ (api page = PageResp.success pes → pes ≠ [] →
        pes.getLast?.bind Event.created_at = some t → t < now - 30 * 86400 →
        fetchLoop now api (fuel + 1) page acc = some (acc ++ pes))
    ∧ (api page = PageResp.success pes → pes ≠ [] →
        pes.getLast?.bind Event.created_at = some t → ¬ t < now - 30 * 86400 →
        fetchLoop now api (fuel + 1) page acc = fetchLoop now api fuel (page + 1) (acc ++ pes))
    ∧ (∀ api2 : Nat → PageResp, (∀ p, 1 ≤ p → p ≤ 10 → api p = api2 p) →
        fetch_user_events now api = fetch_user_events now api2) := by
  refine ⟨?_, ?_, rfl, ?_, ?_, ?_⟩
  · intro hf
    simp only [fetchLoop, hf]
  · intro hf
    simp only [fetchLoop, hf]
    rfl
  · intro hf hne hl ht
    have hne' : pes.isEmpty = false := by
      cases pes with
      | nil => exact absurd rfl hne
      | cons x xs => rfl
    simp only [fetchLoop, hf, hne', Bool.false_eq_true, if_false, hl]
    have ht2 : t < now - 2592000 := by omega
    simp [ht2]
  · intro hf hne hl ht
    have hne' : pes.isEmpty = false := by
      cases pes with
      | nil => exact absurd rfl hne
      | cons x xs => rfl
    simp only [fetchLoop, hf, hne', Bool.false_eq_true, if_false, hl]
    have ht2 : ¬ t < now - 2592000 := by omega
    simp [ht2]
  · intro api2 hagree
    exact fetchLoop_congr now api api2 10 1 []
      (fun p hp1 hp2 => hagree p hp1 (by omega))

/-- Concrete event whose timestamp is exactly 31 days before `now = 0`,
used to witness the stop-after-old-page behaviour. -/
def evOld : Event :=
  { created_at := some (-2678400), type := some "PushEvent", repo_name := some "r",
    payload := { action := none, pull_request := none, commits := none, ref_type := none } }

theorem fetch_user_events_stop_conditions_witness :
    fetchLoop 0 (fun _ => PageResp.success [evOld]) (9 + 1) 1 [] = some ([] ++ [evOld]) :=
  (fetch_user_events_stop_conditions 0 (fun _ => PageResp.success [evOld]) 9 1 [] [evOld]
    (-2678400) 404).2.2.2.1 rfl (by simp) rfl (by omega)
